import Mathlib

/-
Verification development for the prompt-notebook repository.

The SQL schema, row-level-security policies, stored functions and the view
are embedded as Lean functions over explicit stores (user_profiles as a map
from user id to an optional profile row, prompts as a list of rows).  The
client-side TypeScript handlers (home.tsx handleLike, the filter, admin.tsx
handleSubmit) are embedded as pure state-transition functions; React state
updates are modelled by the value the last setState call in the handler
writes, with closure-captured state passed in explicitly.
-/

namespace PromptNotebook

/-- Role enum from the SQL type user_role: normal, vip, svip, admin. -/
inductive Role where
  | normal
  | vip
  | svip
  | admin
deriving DecidableEq, Repr

/-- Row of public.user_profiles: id, user_id (unique, so the table is a map
from user id to at most one row), role, expires_at (nullable timestamp,
modelled as Option Int), created_at, updated_at. -/
structure UserProfile where
  id : Nat
  user_id : Nat
  role : Role
  expires_at : Option Int
  created_at : Int
  updated_at : Int
deriving DecidableEq, Repr

/-- Row of public.prompts: id, title, description, content, tags, author,
likes (INTEGER), category (TEXT constrained to the five names), created_at,
user_id (nullable). -/
structure Prompt where
  id : Nat
  title : String
  description : String
  content : String
  tags : List String
  author : String
  likes : Int
  category : String
  created_at : Int
  user_id : Option Nat
deriving DecidableEq, Repr

/-- The user_profiles table: user_id is UNIQUE NOT NULL, so the table is a
partial map from user id to a row. -/
def ProfileTable := Nat → Option UserProfile

/-- RLS policy "Users can update own profile" on public.user_profiles:
USING (auth.uid() = user_id) and WITH CHECK (auth.uid() = user_id).
The policy constrains only the user_id column of the old and new row; the
GRANT ALL on public.user_profiles covers every column, so a permitted update
may write any column of the row, role and expires_at included. -/
def selfUpdateAllowed (uid : Nat) (oldRow newRow : UserProfile) : Bool :=
  decide (uid = oldRow.user_id) && decide (uid = newRow.user_id)

/-- Function public.get_effective_role(user_uuid): SELECT the row with
user_id = user_uuid (auth.uid() may be NULL, which matches no row); if not
found return normal; admin and normal return the stored role; vip and svip
return the stored role when expires_at IS NULL OR expires_at > NOW(), else
normal; the trailing unreachable branch returns normal. -/
def getEffectiveRole (profiles : ProfileTable) (uid : Option Nat) (now : Int) : Role :=
  match uid.bind profiles with
  | none => Role.normal
  | some r =>
    if r.role = Role.admin ∨ r.role = Role.normal then
      r.role
    else if r.role = Role.vip ∨ r.role = Role.svip then
      match r.expires_at with
      | none => r.role
      | some e => if e > now then r.role else Role.normal
    else
      Role.normal

/-- Condition up.expires_at IS NULL OR up.expires_at > NOW() from the
active_user_roles view. -/
def notExpired (ea : Option Int) (now : Int) : Bool :=
  match ea with
  | none => true
  | some e => decide (e > now)

/-- The effective_role column of the view public.active_user_roles:
CASE WHEN role IN (admin, normal) THEN role
     WHEN role IN (vip, svip) AND (expires_at IS NULL OR expires_at > NOW()) THEN role
     ELSE normal END. -/
def viewEffectiveRole (p : UserProfile) (now : Int) : Role :=
  if p.role = Role.admin ∨ p.role = Role.normal then
    p.role
  else if (p.role = Role.vip ∨ p.role = Role.svip) ∧ notExpired p.expires_at now = true then
    p.role
  else
    Role.normal

/-- Subquery EXISTS (SELECT 1 FROM public.user_profiles WHERE user_id =
auth.uid() AND role = admin) shared by the three prompt-mutation policies;
auth.uid() is NULL for an unauthenticated caller and matches no row. -/
def adminRowExists (profiles : ProfileTable) (caller : Option Nat) : Bool :=
  match caller with
  | none => false
  | some uid =>
    match profiles uid with
    | none => false
    | some p => decide (p.role = Role.admin)

/-- Policy "Anyone can read prompts": FOR SELECT USING (true). -/
def promptsSelectAllowed (_caller : Option Nat) : Bool :=
  true

/-- Policy "Only admins can insert prompts": WITH CHECK (admin row exists). -/
def promptsInsertAllowed (caller : Option Nat) (profiles : ProfileTable) : Bool :=
  adminRowExists profiles caller

/-- Policy "Only admins can update prompts": USING (admin row exists). -/
def promptsUpdateAllowed (caller : Option Nat) (profiles : ProfileTable) : Bool :=
  adminRowExists profiles caller

/-- Policy "Only admins can delete prompts": USING (admin row exists). -/
def promptsDeleteAllowed (caller : Option Nat) (profiles : ProfileTable) : Bool :=
  adminRowExists profiles caller

/-- Function increment_likes(p_id): UPDATE public.prompts SET likes =
likes + 1 WHERE id = p_id, executed as one statement; the plpgsql body has
no error path, a missing id simply updates zero rows. -/
def increment_likes (store : List Prompt) (p_id : Nat) : List Prompt :=
  store.map fun p => if p.id = p_id then { p with likes := p.likes + 1 } else p

/-- Substring test on character lists, modelling JavaScript
String.prototype.includes: true when the second list occurs contiguously in
the first (the empty list occurs in every list). -/
def strIncludes : List Char → List Char → Bool
  | s, sub =>
    if sub.isPrefixOf s then true
    else
      match s with
      | [] => false
      | _ :: rest => strIncludes rest sub

/-- Case-insensitive containment, modelling
s.toLowerCase().includes(q.toLowerCase()) from home.tsx. -/
def includesCI (s q : String) : Bool :=
  strIncludes (s.data.map Char.toLower) (q.data.map Char.toLower)

/-- The matchesSearch conjunct of the filteredPrompts predicate in home.tsx:
the query occurs case-insensitively in the title, in the description, or in
some tag. -/
def matchesSearch (p : Prompt) (q : String) : Bool :=
  includesCI p.title q || includesCI p.description q || p.tags.any fun t => includesCI t q

/-- The matchesCategory conjunct of the filteredPrompts predicate in
home.tsx: selectedCategory is the string All, or the prompt category equals
it. -/
def matchesCategory (p : Prompt) (c : String) : Bool :=
  c == "All" || p.category == c

/-- The filteredPrompts computation of home.tsx: prompts.filter over the
conjunction of the search match and the category match. -/
def filteredPrompts (ps : List Prompt) (c q : String) : List Prompt :=
  ps.filter fun p => matchesSearch p q && matchesCategory p c

/-- Client state of the Home component relevant to handleLike: the prompts
list, the optionally selected prompt, and the local likedPrompts set
(mirrored to localStorage, modelled as a list). -/
structure ClientState where
  prompts : List Prompt
  selectedPrompt : Option Prompt
  likedPrompts : List Nat
deriving DecidableEq, Repr

/-- Handler handleLike of home.tsx as a state transition.  Arguments cfg
(isSupabaseConfigured) and serverOk (whether the increment_likes RPC
succeeds) stand for the two environment branches; the returned Bool records
whether the RPC was invoked.  The handler closes over the render-time state
s: both the optimistic update and the error-path revert map over s.prompts
and s.selectedPrompt (the revert uses the same closure values, not the
optimistically updated ones), and the last setState call of each field
wins. -/
def handleLike (s : ClientState) (pid : Nat) (cfg serverOk : Bool) : ClientState × Bool :=
  if pid ∈ s.likedPrompts then
    (s, false)
  else
    let optimistic := s.prompts.map fun p =>
      if p.id = pid then { p with likes := p.likes + 1 } else p
    let optimisticSel :=
      match s.selectedPrompt with
      | some sp => if sp.id = pid then some { sp with likes := sp.likes + 1 } else some sp
      | none => none
    let newLiked := pid :: s.likedPrompts
    if cfg then
      if serverOk then
        ({ prompts := optimistic, selectedPrompt := optimisticSel, likedPrompts := newLiked }, true)
      else
        let reverted := s.prompts.map fun p =>
          if p.id = pid then { p with likes := p.likes - 1 } else p
        let revertedSel :=
          match s.selectedPrompt with
          | some sp => if sp.id = pid then some { sp with likes := sp.likes - 1 } else some sp
          | none => none
        ({ prompts := reverted, selectedPrompt := revertedSel,
           likedPrompts := newLiked.erase pid }, true)
    else
      ({ prompts := optimistic, selectedPrompt := optimisticSel, likedPrompts := newLiked }, false)

/-- Form state of the Admin component: title, description, content, tags as
one comma-separated string, author, category. -/
structure FormData where
  title : String
  description : String
  content : String
  tags : String
  author : String
  category : String
deriving DecidableEq, Repr

/-- Tag parsing in handleSubmit: formData.tags.split on comma, trim each
piece, drop empty pieces. -/
def parseTags (s : String) : List String :=
  ((s.split fun c => c = ',').map String.trim).filter fun t => ¬ t = ""

/-- The promptData object built by handleSubmit in admin.tsx: the form
fields, tags parsed, user_id set to the acting user, and likes set to
editingPrompt?.likes || 0 (the snapshot taken when the edit modal opened, or
0 when creating; the JavaScript || collapses a 0 snapshot to 0, which is the
same value). -/
structure PromptData where
  title : String
  description : String
  content : String
  tags : List String
  author : String
  category : String
  user_id : Nat
  likes : Int
deriving DecidableEq, Repr

/-- Construction of promptData from the form, the acting user and the
optional editing snapshot. -/
def promptDataOf (form : FormData) (uid : Nat) (editing : Option Prompt) : PromptData :=
  { title := form.title
    description := form.description
    content := form.content
    tags := parseTags form.tags
    author := form.author
    category := form.category
    user_id := uid
    likes := match editing with | some p => p.likes | none => 0 }

/-- Effect of supabase.from(prompts).update(d) on one matched row: every
field present in the payload object is written; id and created_at are not in
the payload and keep their stored values. -/
def applyPayload (p : Prompt) (d : PromptData) : Prompt :=
  { p with title := d.title, description := d.description, content := d.content,
           tags := d.tags, author := d.author, category := d.category,
           likes := d.likes, user_id := some d.user_id }

/-- Update branch of handleSubmit: build promptData from the form, the
acting user and the editing snapshot, then update the rows whose id equals
editingPrompt.id. -/
def handleSubmitUpdate (store : List Prompt) (form : FormData) (uid : Nat)
    (editing : Prompt) : List Prompt :=
  let d := promptDataOf form uid (some editing)
  store.map fun p => if p.id = editing.id then applyPayload p d else p

/-- Insert branch of handleSubmit: build promptData with no editing snapshot
(likes 0) and insert one new row; id and created_at are generated by the
server and passed here explicitly. -/
def handleSubmitInsert (store : List Prompt) (newId : Nat) (createdAt : Int)
    (form : FormData) (uid : Nat) : List Prompt :=
  let d := promptDataOf form uid none
  store ++ [{ id := newId, title := d.title, description := d.description,
              content := d.content, tags := d.tags, author := d.author,
              likes := d.likes, category := d.category,
              created_at := createdAt, user_id := some d.user_id }]

/-- Fixture: a prompt row with id 1 and 5 likes. -/
def exPrompt5 : Prompt :=
  { id := 1, title := "t", description := "d", content := "c", tags := [],
    author := "a", likes := 5, category := "Other", created_at := 0, user_id := none }

/-- Fixture: a profile row of user 7 with the normal role. -/
def exProfileNormal : UserProfile :=
  { id := 1, user_id := 7, role := Role.normal, expires_at := none,
    created_at := 0, updated_at := 0 }

/-- Fixture: the same row with role rewritten to admin by its owner. -/
def exProfileSelfPromoted : UserProfile :=
  { exProfileNormal with role := Role.admin }

/-- C1: the self-service update path is claimed to leave role and expires_at
unchanged, but the policy Users can update own profile constrains only
user_id in USING and WITH CHECK, and GRANT ALL covers the role column, so a
normal user updating their own row to role admin is permitted: the update
that self-promotes user 7 passes the policy while changing role. -/
theorem c1_self_promotion_permitted :
    selfUpdateAllowed 7 exProfileNormal exProfileSelfPromoted = true
    ∧ exProfileNormal.role = Role.normal
    ∧ exProfileSelfPromoted.role = Role.admin
    ∧ ¬ exProfileSelfPromoted.role = exProfileNormal.role := by
  decide

/-- Fixture: Home component state showing one prompt with 5 likes and an
empty liked set. -/
def exHomeState : ClientState :=
  { prompts := [exPrompt5], selectedPrompt := none, likedPrompts := [] }

/-- C6: when the increment_likes RPC fails, the claim says the displayed
count rolls back to its prior value; the code maps likes - 1 over the
closure-captured pre-like prompts list, so from 5 displayed likes the client
ends at 4, one below the prior value, while the liked set is correctly
restored. -/
theorem c6_failed_like_undershoots :
    exHomeState.prompts.map Prompt.likes = [5]
    ∧ (handleLike exHomeState 1 true false).1.prompts.map Prompt.likes = [4]
    ∧ ¬ (handleLike exHomeState 1 true false).1.prompts.map Prompt.likes
          = exHomeState.prompts.map Prompt.likes
    ∧ (handleLike exHomeState 1 true false).1.likedPrompts = exHomeState.likedPrompts
    ∧ (handleLike exHomeState 1 true false).2 = true := by
  decide

/-- C7: a like attempt on an identifier already in the local liked set
returns before any state change or RPC call: the state is unchanged and no
server call is made. -/
theorem c7_duplicate_like_suppressed (s : ClientState) (pid : Nat) (cfg serverOk : Bool)
    (h : pid ∈ s.likedPrompts) :
    handleLike s pid cfg serverOk = (s, false) := by
  simp [handleLike, h]

/-- Fixture: Home state whose liked set already contains prompt 1. -/
def exLikedState : ClientState :=
  { prompts := [exPrompt5], selectedPrompt := none, likedPrompts := [1] }

/-- Witness for C7 at a concrete state with prompt 1 already liked. -/
theorem c7_witness :
    1 ∈ exLikedState.likedPrompts
    ∧ handleLike exLikedState 1 true true = (exLikedState, false) :=
  ⟨by decide, c7_duplicate_like_suppressed exLikedState 1 true true (by decide)⟩

/-- C9: increment_likes with an id matching no stored prompt leaves every
row unchanged; the function body is a single UPDATE with no error path, so
the call returns normally (the embedding is a total function). -/
theorem c9_missing_id_is_noop (store : List Prompt) (p_id : Nat)
    (h : ∀ q ∈ store, ¬ q.id = p_id) :
    increment_likes store p_id = store := by
  unfold increment_likes
  conv_rhs => rw [← List.map_id store]
  exact List.map_congr_left fun q hq => by simp [h q hq]

/-- Witness for C9 at a one-row store and an absent id. -/
theorem c9_witness : increment_likes [exPrompt5] 99 = [exPrompt5] :=
  c9_missing_id_is_noop [exPrompt5] 99 (by decide)

/-- C8: membership in filteredPrompts holds exactly for prompts from the
input list whose title, description or some tag contains the search term
case-insensitively, and whose category equals the selected one unless that
is All. -/
theorem c8_filter_characterization (ps : List Prompt) (c q : String) (p : Prompt) :
    p ∈ filteredPrompts ps c q ↔
      p ∈ ps
      ∧ (includesCI p.title q = true ∨ includesCI p.description q = true
          ∨ ∃ t ∈ p.tags, includesCI t q = true)
      ∧ (c = "All" ∨ p.category = c) := by
  simp only [filteredPrompts, List.mem_filter, matchesSearch, matchesCategory,
    Bool.and_eq_true, Bool.or_eq_true, List.any_eq_true, beq_iff_eq]
  tauto

/-- C2: get_effective_role returns normal when no profile row exists, the
assigned role for admin and normal regardless of expires_at, the assigned
role for vip and svip when expires_at is null or strictly after now, and
normal for vip and svip whose expires_at is non-null and not after now. -/
theorem c2_effective_role_cases (profiles : ProfileTable) (uid : Nat) (now : Int) :
    (profiles uid = none → getEffectiveRole profiles (some uid) now = Role.normal)
    ∧ (∀ p, profiles uid = some p → (p.role = Role.admin ∨ p.role = Role.normal) →
        getEffectiveRole profiles (some uid) now = p.role)
    ∧ (∀ p, profiles uid = some p → (p.role = Role.vip ∨ p.role = Role.svip) →
        (p.expires_at = none ∨ ∃ e, p.expires_at = some e ∧ e > now) →
        getEffectiveRole profiles (some uid) now = p.role)
    ∧ (∀ p e, profiles uid = some p → (p.role = Role.vip ∨ p.role = Role.svip) →
        p.expires_at = some e → ¬ e > now →
        getEffectiveRole profiles (some uid) now = Role.normal) := by
  refine ⟨fun h => by simp [getEffectiveRole, h], ?_, ?_, ?_⟩
  · intro p hp hr
    rcases hr with h | h <;> simp [getEffectiveRole, hp, h]
  · intro p hp hr hexp
    rcases hexp with hnone | ⟨e, he, hgt⟩
    · rcases hr with h | h <;> simp [getEffectiveRole, hp, h, hnone]
    · rcases hr with h | h <;> simp [getEffectiveRole, hp, h, he, hgt]
  · intro p e hp hr he hn
    rcases hr with h | h <;> simp [getEffectiveRole, hp, h, he, hn]

/-- Fixture: a vip profile whose expiration 200 is still in the future at
instant 100. -/
def exVipLive : UserProfile :=
  { id := 3, user_id := 3, role := Role.vip, expires_at := some 200,
    created_at := 0, updated_at := 0 }

/-- Fixture: a vip profile whose expiration 50 has passed at instant 100. -/
def exVipExpired : UserProfile :=
  { id := 4, user_id := 1, role := Role.vip, expires_at := some 50,
    created_at := 0, updated_at := 0 }

/-- Fixture: an admin profile. -/
def exAdminProfile : UserProfile :=
  { id := 5, user_id := 2, role := Role.admin, expires_at := none,
    created_at := 0, updated_at := 0 }

/-- Fixture: a profile table with an expired vip (user 1), an admin
(user 2), a live vip (user 3), and nothing else. -/
def exProfiles : ProfileTable := fun u =>
  if u = 1 then some exVipExpired
  else if u = 2 then some exAdminProfile
  else if u = 3 then some exVipLive
  else none

/-- Witness for C2 on the fixture table at instant 100, covering the four
cases: missing profile, admin, unexpired vip, expired vip. -/
theorem c2_witness :
    getEffectiveRole exProfiles (some 0) 100 = Role.normal
    ∧ getEffectiveRole exProfiles (some 2) 100 = Role.admin
    ∧ getEffectiveRole exProfiles (some 3) 100 = Role.vip
    ∧ getEffectiveRole exProfiles (some 1) 100 = Role.normal := by
  refine ⟨?_, ?_, ?_, ?_⟩
  · exact (c2_effective_role_cases exProfiles 0 100).1 rfl
  · exact (c2_effective_role_cases exProfiles 2 100).2.1 exAdminProfile rfl (Or.inl rfl)
  · exact (c2_effective_role_cases exProfiles 3 100).2.2.1 exVipLive rfl (Or.inl rfl)
      (Or.inr ⟨200, rfl, by decide⟩)
  · exact (c2_effective_role_cases exProfiles 1 100).2.2.2 exVipExpired 50 rfl (Or.inl rfl)
      rfl (by decide)

/-- Shared lemma: the admin-row EXISTS subquery of the prompt policies is
equivalent to the caller having effective role admin at any instant, because
an assigned admin role never expires and no other assigned role resolves to
admin. -/
theorem adminRowExists_iff_effective (profiles : ProfileTable) (caller : Option Nat)
    (now : Int) :
    adminRowExists profiles caller = true ↔ getEffectiveRole profiles caller now = Role.admin := by
  cases caller with
  | none => simp [adminRowExists, getEffectiveRole]
  | some uid =>
    cases hp : profiles uid with
    | none => simp [adminRowExists, getEffectiveRole, hp]
    | some p =>
      cases hr : p.role <;>
        simp [adminRowExists, getEffectiveRole, hp, hr] <;>
          cases he : p.expires_at <;>
            simp [he] <;> split <;> simp

/-- C3: reading prompts is permitted unconditionally, and each of
insert, update and delete on prompts is permitted exactly when the caller
(possibly unauthenticated, modelled as none) has effective role admin. -/
theorem c3_admin_only_prompt_writes (caller : Option Nat) (profiles : ProfileTable)
    (now : Int) :
    promptsSelectAllowed caller = true
    ∧ (promptsInsertAllowed caller profiles = true
        ↔ getEffectiveRole profiles caller now = Role.admin)
    ∧ (promptsUpdateAllowed caller profiles = true
        ↔ getEffectiveRole profiles caller now = Role.admin)
    ∧ (promptsDeleteAllowed caller profiles = true
        ↔ getEffectiveRole profiles caller now = Role.admin) :=
  ⟨rfl, adminRowExists_iff_effective profiles caller now,
    adminRowExists_iff_effective profiles caller now,
    adminRowExists_iff_effective profiles caller now⟩

/-- C10: on every stored profile row, the effective_role computed by the
active_user_roles view coincides with get_effective_role for that row's
user at the same instant. -/
theorem c10_view_matches_function (profiles : ProfileTable) (uid : Nat) (p : UserProfile)
    (now : Int) (hp : profiles uid = some p) :
    viewEffectiveRole p now = getEffectiveRole profiles (some uid) now := by
  cases hr : p.role with
  | admin => simp [viewEffectiveRole, getEffectiveRole, hp, hr]
  | normal => simp [viewEffectiveRole, getEffectiveRole, hp, hr]
  | vip =>
    cases he : p.expires_at with
    | none => simp [viewEffectiveRole, getEffectiveRole, notExpired, hp, hr, he]
    | some e =>
      by_cases hg : e > now <;>
        simp [viewEffectiveRole, getEffectiveRole, notExpired, hp, hr, he, hg]
  | svip =>
    cases he : p.expires_at with
    | none => simp [viewEffectiveRole, getEffectiveRole, notExpired, hp, hr, he]
    | some e =>
      by_cases hg : e > now <;>
        simp [viewEffectiveRole, getEffectiveRole, notExpired, hp, hr, he, hg]

/-- Witness for C10 on the expired-vip fixture row at instant 100. -/
theorem c10_witness :
    exProfiles 1 = some exVipExpired
    ∧ viewEffectiveRole exVipExpired 100 = getEffectiveRole exProfiles (some 1) 100 :=
  ⟨rfl, c10_view_matches_function exProfiles 1 exVipExpired 100 rfl⟩

/-- Shared lemma: one increment_likes call on a store holding exactly one
row with the target id rewrites only that row, adding one to its likes and
touching no other field. -/
theorem increment_likes_split (pre post : List Prompt) (t : Prompt) (p_id : Nat)
    (ht : t.id = p_id) (hpre : ∀ q ∈ pre, ¬ q.id = p_id) (hpost : ∀ q ∈ post, ¬ q.id = p_id) :
    increment_likes (pre ++ t :: post) p_id
      = pre ++ { t with likes := t.likes + 1 } :: post := by
  unfold increment_likes
  rw [List.map_append, List.map_cons]
  have h1 : (pre.map fun p => if p.id = p_id then { p with likes := p.likes + 1 } else p) = pre := by
    conv_rhs => rw [← List.map_id pre]
    exact List.map_congr_left fun q hq => by simp [hpre q hq]
  have h2 : (post.map fun p => if p.id = p_id then { p with likes := p.likes + 1 } else p) = post := by
    conv_rhs => rw [← List.map_id post]
    exact List.map_congr_left fun q hq => by simp [hpost q hq]
  rw [h1, h2, if_pos ht]

/-- C5: when the store holds exactly one row with the target id, N
invocations of increment_likes (each a single UPDATE statement, hence one
indivisible storage operation; sequential composition models N atomic calls)
add exactly N to that row's like count and change no other field or row. -/
theorem c5_n_increments_add_n (pre post : List Prompt) (p_id N : Nat)
    (hpre : ∀ q ∈ pre, ¬ q.id = p_id) (hpost : ∀ q ∈ post, ¬ q.id = p_id) :
    ∀ t : Prompt, t.id = p_id →
      (fun s => increment_likes s p_id)^[N] (pre ++ t :: post)
        = pre ++ { t with likes := t.likes + (N : Int) } :: post := by
  induction N with
  | zero =>
    intro t ht
    simp
  | succ n ih =>
    intro t ht
    rw [Function.iterate_succ_apply]
    show (fun s => increment_likes s p_id)^[n] (increment_likes (pre ++ t :: post) p_id) = _
    rw [increment_likes_split pre post t p_id ht hpre hpost,
      ih { t with likes := t.likes + 1 } ht]
    have hcast : t.likes + 1 + (n : Int) = t.likes + ((n : Int) + 1) := by ring
    simp [hcast]

/-- Witness for C5: three increments on a one-row store take the count from
5 to 5 + 3. -/
theorem c5_witness :
    (fun s => increment_likes s 1)^[3] [exPrompt5]
      = [{ exPrompt5 with likes := exPrompt5.likes + ((3 : Nat) : Int) }] :=
  c5_n_increments_add_n [] [] 1 3 (by simp) (by simp) exPrompt5 rfl

/-- Fixture: a stale client snapshot of exPrompt5 carrying 3 likes while the
stored row carries 5. -/
def exStaleSnap : Prompt :=
  { exPrompt5 with likes := 3 }

/-- Fixture: form contents for an admin edit. -/
def exForm : FormData :=
  { title := "t2", description := "d2", content := "c2", tags := "x, y",
    author := "a2", category := "Art" }

/-- C4 counterexample: an update through handleSubmit writes likes from the
client snapshot, so with a stale snapshot (3) the stored like count (5)
changes to 3: the stored like count is not unchanged by every write. -/
theorem c4_counterexample :
    [exPrompt5].map Prompt.likes = [5]
    ∧ (handleSubmitUpdate [exPrompt5] exForm 9 exStaleSnap).map Prompt.likes = [3]
    ∧ ¬ (handleSubmitUpdate [exPrompt5] exForm 9 exStaleSnap).map Prompt.likes
          = [exPrompt5].map Prompt.likes := by
  decide

/-- C4 amended: an update writes the six form fields plus user_id (the
acting user) and likes (the snapshot taken when editing began); id,
created_at and all non-target rows are unchanged, and the stored like count
is unchanged precisely because the snapshot equals it; an insert appends one
row with likes 0 and leaves every existing row unchanged. -/
theorem c4_write_frame (pre post : List Prompt) (t snap : Prompt) (form : FormData)
    (uid : Nat) (hid : snap.id = t.id) (hlikes : snap.likes = t.likes)
    (hpre : ∀ q ∈ pre, ¬ q.id = snap.id) (hpost : ∀ q ∈ post, ¬ q.id = snap.id) :
    handleSubmitUpdate (pre ++ t :: post) form uid snap
      = pre ++ { t with
                 title := form.title
                 description := form.description
                 content := form.content
                 tags := parseTags form.tags
                 author := form.author
                 category := form.category
                 user_id := some uid } :: post
    ∧ ∀ (store2 : List Prompt) (newId : Nat) (createdAt : Int),
        handleSubmitInsert store2 newId createdAt form uid
          = store2 ++ [{ id := newId
                         title := form.title
                         description := form.description
                         content := form.content
                         tags := parseTags form.tags
                         author := form.author
                         likes := 0
                         category := form.category
                         created_at := createdAt
                         user_id := some uid }] := by
  constructor
  · unfold handleSubmitUpdate
    rw [List.map_append, List.map_cons]
    have h1 : (pre.map fun p =>
        if p.id = snap.id then applyPayload p (promptDataOf form uid (some snap)) else p) = pre := by
      conv_rhs => rw [← List.map_id pre]
      exact List.map_congr_left fun q hq => by simp [hpre q hq]
    have h2 : (post.map fun p =>
        if p.id = snap.id then applyPayload p (promptDataOf form uid (some snap)) else p) = post := by
      conv_rhs => rw [← List.map_id post]
      exact List.map_congr_left fun q hq => by simp [hpost q hq]
    rw [h1, h2, if_pos hid.symm]
    simp [applyPayload, promptDataOf, hlikes]
  · intro store2 newId createdAt
    rfl

/-- Witness for C4 amended: editing with a current snapshot leaves the like
count at 5, and an insert into the empty store creates one row with 0
likes. -/
theorem c4_witness :
    handleSubmitUpdate [exPrompt5] exForm 9 exPrompt5
      = [{ exPrompt5 with
           title := exForm.title
           description := exForm.description
           content := exForm.content
           tags := parseTags exForm.tags
           author := exForm.author
           category := exForm.category
           user_id := some 9 }]
    ∧ handleSubmitInsert [] 2 0 exForm 9
      = [{ id := 2
           title := exForm.title
           description := exForm.description
           content := exForm.content
           tags := parseTags exForm.tags
           author := exForm.author
           likes := 0
           category := exForm.category
           created_at := 0
           user_id := some 9 }] :=
  ⟨(c4_write_frame [] [] exPrompt5 exPrompt5 exForm 9 rfl rfl (by simp) (by simp)).1,
    (c4_write_frame [] [] exPrompt5 exPrompt5 exForm 9 rfl rfl (by simp) (by simp)).2 [] 2 0⟩

end PromptNotebook
